import Mathlib

/-
Verification of the keeper upkeep/finalization decision engine
(`main.py` of keeper-decentralize-foot-bet).

The engine processes a batch of tracked matches: for each match it checks
whether an on-chain upkeep is needed, submits it if so, reads the on-chain
winner state, then (a) finalizes the match (fetch and store the final score,
set isDeployed = 2) when the early grace period has passed or a winner
exists, and (b) re-fetches the score under a shared throttle counter.  All
external answers (RPC calls, score API) are modelled as per-match oracle
values that are either a value or an error; the per-match try/except of the
source is modelled by threading an `Except` outcome through the batch loop.
The sqlite connection is modelled as a durable table plus a list of pending
updates; `commit` folds the pending updates into the durable table.
-/

namespace KeeperFootBet

/-- Error taxonomy of the external collaborators: any of these is an
`Exception` caught by the per-match handler of `main`. -/
inductive Err where
  | rpcError
  | transactionError
  | externalApiError
  | notFoundError
  | persistenceError
deriving DecidableEq, Repr

/-- A mined transaction receipt; the source only ever reads `status`. -/
structure TxReceipt where
  status : Nat
deriving DecidableEq, Repr

/-- One row of the `matches` table:
`matches(match_id PK, address, date, isDeployed, home_score, away_score)`,
`isDeployed` = 1 for Active, 2 for Finalized. -/
structure MatchRow where
  match_id : Nat
  address : Nat
  date : Int
  isDeployed : Nat
  home_score : Option Int
  away_score : Option Int
deriving DecidableEq, Repr

/-- The persisted `matches` table. -/
abbrev Store := List MatchRow

/-- The UPDATE statements the engine issues through the cursor. -/
inductive DbUpdate where
  | setHomeScore (matchId : Nat) (v : Option Int)
  | setAwayScore (matchId : Nat) (v : Option Int)
  | setDeployed2 (matchId : Nat)
deriving DecidableEq, Repr

/-- Effect of one UPDATE statement on one row (SQL `UPDATE ... WHERE
match_id = ?` touches exactly the rows whose key matches, and is a silent
no-op on the others). -/
def updRow (u : DbUpdate) (r : MatchRow) : MatchRow :=
  match u with
  | .setHomeScore j v => if r.match_id == j then { r with home_score := v } else r
  | .setAwayScore j v => if r.match_id == j then { r with away_score := v } else r
  | .setDeployed2 j => if r.match_id == j then { r with isDeployed := 2 } else r

/-- Effect of one UPDATE statement on the whole table. -/
def applyUpdate (s : Store) (u : DbUpdate) : Store := s.map (updRow u)

/-- The sqlite connection: the durable table plus the updates executed since
the last commit.  The source never rolls back, so pending updates survive a
per-match exception and are flushed by the next commit. -/
structure Conn where
  durable : Store
  pending : List DbUpdate
deriving DecidableEq, Repr

/-- `cursor.execute` of an UPDATE: queue the update on the connection. -/
def Conn.execute (c : Conn) (u : DbUpdate) : Conn :=
  { c with pending := c.pending ++ [u] }

/-- `connection.commit()`: make every pending update durable. -/
def Conn.commit (c : Conn) : Conn :=
  { durable := c.pending.foldl applyUpdate c.durable, pending := [] }

/-- The answers the external world gives for one match during one cycle:
each chain call and each score fetch either returns a value or raises. The
two `registerMatchScore` call sites (finalization branch and throttle
branch) get their own fetch answer. -/
structure Oracle where
  checkUpkeep : Except Err Bool
  performUpkeep : Except Err TxReceipt
  getWinner : Except Err Nat
  getMatchId : Except Err Nat
  fetchFinal : Except Err (Option Int × Option Int)
  fetchThrottle : Except Err (Option Int × Option Int)

/-- Observable events of one run: the log lines of the source
(`performUpkeep`, `registerMatchScore`, `timeout`, `Error upkeep`) plus the
outbound score-API request itself (`fetchAttemptEv`, tagged with whether it
came from the throttled branch). -/
inductive LogEvent where
  | performUpkeepEv (matchId : Nat)
  | fetchAttemptEv (fromThrottle : Bool) (matchId : Nat)
  | registerScoreEv (fromThrottle : Bool) (matchId : Nat)
  | timeoutEv (matchId : Nat)
  | errorEv (matchId : Nat) (e : Err)
deriving DecidableEq, Repr

/-- `registerMatchScore(bet, cursor)`: look up the on-chain match id, fetch
the score from the external API, and queue the two score UPDATEs keyed by
that id.  Any failure before the UPDATEs leaves the connection untouched. -/
def registerMatchScore (getMatchIdAns : Except Err Nat)
    (fetchAns : Except Err (Option Int × Option Int)) (fromThrottle : Bool)
    (c : Conn) : Except Err Conn × List LogEvent :=
  match getMatchIdAns with
  | .error e => (.error e, [])
  | .ok matchId =>
    match fetchAns with
    | .error e => (.error e, [.fetchAttemptEv fromThrottle matchId])
    | .ok sc =>
      let c1 := c.execute (.setHomeScore matchId sc.1)
      let c2 := c1.execute (.setAwayScore matchId sc.2)
      (.ok c2, [.fetchAttemptEv fromThrottle matchId,
                .registerScoreEv fromThrottle matchId])

/-- The columns of the batch query
`SELECT match_id, address, date, isDeployed FROM matches WHERE isDeployed = 1`. -/
structure DeployedRow where
  match_id : Nat
  address : Nat
  date : Int
  isDeployed : Nat
deriving DecidableEq, Repr

/-- Ambient inputs of one invocation: the wall clock read in the loop and
the configured long timeout (days). -/
structure Env where
  now : Int
  timeoutKeeperNeeded : Int
deriving Repr

/-- The database-update phase of one loop iteration (source lines 125-137):
the immediate-finalization branch, then the throttled re-fetch branch, then
the per-match commit.  Returns the outcome, the connection, the shared
throttle counter and the events, exactly as left at the point the iteration
finished or raised. -/
def updateDbPhase (env : Env) (o : Oracle) (row : DeployedRow) (c : Conn)
    (tempo : Nat) (matchState : Nat) :
    Except Err Unit × Conn × Nat × List LogEvent :=
  let finRes :=
    if (env.now > row.date + 3 * 24 * 60 * 60 ∨ matchState ≠ 0) ∧ row.isDeployed < 2 then
      match registerMatchScore o.getMatchId o.fetchFinal false c with
      | (.error e, evs) => (Except.error e, c, evs)
      | (.ok c1, evs) =>
        (Except.ok (), c1.execute (.setDeployed2 row.match_id),
         evs ++ [.timeoutEv row.match_id])
    else (Except.ok (), c, [])
  match finRes with
  | (.error e, c1, evs) => (.error e, c1, tempo, evs)
  | (.ok _, c1, evs1) =>
    let thrRes :=
      if env.now > row.date + env.timeoutKeeperNeeded * 24 * 60 * 60 ∧
          matchState ≠ 0 ∧ tempo % 50 = 0 then
        match registerMatchScore o.getMatchId o.fetchThrottle true c1 with
        | (.error e, evs) => (Except.error e, c1, tempo, evs)
        | (.ok c2, evs) =>
          let t1 := tempo + 1
          (Except.ok (), c2, if t1 = 50 then 0 else t1, evs)
      else (Except.ok (), c1, tempo, [])
    match thrRes with
    | (.error e, c2, t2, evs2) => (.error e, c2, t2, evs1 ++ evs2)
    | (.ok _, c2, t2, evs2) => (.ok (), c2.commit, t2, evs1 ++ evs2)

/-- The body of one loop iteration of `main` (source lines 112-137), i.e.
everything inside the per-match `try`: upkeep check, optional upkeep
submission, winner query, then the database phase. -/
def processMatchBody (env : Env) (o : Oracle) (row : DeployedRow) (c : Conn)
    (tempo : Nat) : Except Err Unit × Conn × Nat × List LogEvent :=
  match o.checkUpkeep with
  | .error e => (.error e, c, tempo, [])
  | .ok isUpkeepNeeded =>
    if isUpkeepNeeded then
      match o.performUpkeep with
      | .error e => (.error e, c, tempo, [])
      | .ok _receipt =>
        match o.getWinner with
        | .error e => (.error e, c, tempo, [.performUpkeepEv row.match_id])
        | .ok matchState =>
          let out := updateDbPhase env o row c tempo matchState
          (out.1, out.2.1, out.2.2.1, .performUpkeepEv row.match_id :: out.2.2.2)
    else
      match o.getWinner with
      | .error e => (.error e, c, tempo, [])
      | .ok matchState => updateDbPhase env o row c tempo matchState

/-- The batch loop of `main` (source lines 111-141): each match is processed
inside a try/except; an exception is logged against that match and the loop
continues with the connection and throttle counter exactly as the failed
iteration left them. -/
def runBatch (env : Env) (batch : List (DeployedRow × Oracle)) (c : Conn)
    (tempo : Nat) : Conn × Nat × List LogEvent :=
  match batch with
  | [] => (c, tempo, [])
  | (row, o) :: rest =>
    let out := processMatchBody env o row c tempo
    let evs1 :=
      match out.1 with
      | .ok _ => out.2.2.2
      | .error e => out.2.2.2 ++ [.errorEv row.match_id e]
    let rec1 := runBatch env rest out.2.1 out.2.2.1
    (rec1.1, rec1.2.1, evs1 ++ rec1.2.2)

/-- The whole of `main` after `init`: open the store, select the rows with
`isDeployed = 1`, start the throttle counter at 0, and run the batch.
Oracles are keyed by contract address. -/
def mainRun (env : Env) (oracleOf : Nat → Oracle) (store : Store) :
    Conn × Nat × List LogEvent :=
  let deployed := (store.filter (fun r => r.isDeployed == 1)).map
    (fun r => (({ match_id := r.match_id, address := r.address, date := r.date,
                  isDeployed := r.isDeployed } : DeployedRow), oracleOf r.address))
  runBatch env deployed { durable := store, pending := [] } 0

/-- The `isDeployed` column of the first row with the given id (the id is a
primary key, so the first matching row is the row). -/
def statusOf (s : Store) (id : Nat) : Option Nat :=
  match s with
  | [] => none
  | r :: t => if r.match_id == id then some r.isDeployed else statusOf t id

/-- The score columns of the first row with the given id. -/
def scoresOf (s : Store) (id : Nat) : Option (Option Int × Option Int) :=
  match s with
  | [] => none
  | r :: t => if r.match_id == id then some (r.home_score, r.away_score) else scoresOf t id

/-- Recognizes a completed throttled re-fetch (the `registerMatchScore` log
line emitted from the throttle branch). -/
def isThrottleScore (ev : LogEvent) : Bool :=
  match ev with
  | .registerScoreEv true _ => true
  | _ => false

/-- Recognizes an outbound score-API request issued by the throttle branch
(whether or not the fetch succeeded). -/
def isThrottleAttempt (ev : LogEvent) : Bool :=
  match ev with
  | .fetchAttemptEv true _ => true
  | _ => false

/-! Concrete scenarios used by the claim theorems, counterexamples and
witnesses. -/

/-- A batch far past both the grace period and the long timeout. -/
def C1env : Env := { now := 1000000000, timeoutKeeperNeeded := 5 }

/-- Fully healthy oracle with a non-zero winner; final-branch fetches return
(1,1) and throttle-branch fetches return (2,2) so the two call sites are
distinguishable in the stored data. -/
def C1oracle (i : Nat) : Oracle :=
  { checkUpkeep := .ok false, performUpkeep := .ok { status := 1 },
    getWinner := .ok 2, getMatchId := .ok i,
    fetchFinal := .ok (some 1, some 1), fetchThrottle := .ok (some 2, some 2) }

/-- 120 matches, all eligible for the throttled re-fetch branch. -/
def C1batch : List (DeployedRow × Oracle) :=
  (List.range 120).map (fun i =>
    ({ match_id := i, address := i, date := 0, isDeployed := 1 }, C1oracle i))

/-- An Active match deployed at time 0. -/
def C3row : MatchRow :=
  { match_id := 1, address := 1, date := 0, isDeployed := 1,
    home_score := none, away_score := none }

/-- Oracle whose finalization-branch score fetch raises. -/
def C3oracle : Oracle :=
  { checkUpkeep := .ok false, performUpkeep := .ok { status := 1 },
    getWinner := .ok 2, getMatchId := .ok 1,
    fetchFinal := .error .externalApiError, fetchThrottle := .ok (some 9, some 9) }

/-- Past the grace period, far from the long timeout. -/
def C3env : Env := { now := 400000, timeoutKeeperNeeded := 100 }

def C3run : Conn × Nat × List LogEvent := mainRun C3env (fun _ => C3oracle) [C3row]

/-- Matches for the fault-isolation batch: deployed 300000 s before `now`. -/
def C5row (i : Nat) : MatchRow :=
  { match_id := i, address := i, date := 700000, isDeployed := 1,
    home_score := none, away_score := none }

/-- Match 2's upkeep check raises an RpcError; every other match is fully
healthy with a non-zero winner. -/
def C5oracle (i : Nat) : Oracle :=
  if i = 2 then
    { checkUpkeep := .error .rpcError, performUpkeep := .ok { status := 1 },
      getWinner := .ok 0, getMatchId := .ok 2,
      fetchFinal := .ok (none, none), fetchThrottle := .ok (none, none) }
  else
    { checkUpkeep := .ok true, performUpkeep := .ok { status := 1 },
      getWinner := .ok 2, getMatchId := .ok i,
      fetchFinal := .ok (some (i : Int), some (i : Int)),
      fetchThrottle := .ok (some 0, some 0) }

def C5env : Env := { now := 1000000, timeoutKeeperNeeded := 100 }

def C5store : Store := [C5row 1, C5row 2, C5row 3, C5row 4, C5row 5]

def C5run : Conn × Nat × List LogEvent := mainRun C5env C5oracle C5store

/-- An Active match deployed at time 0. -/
def C6row : MatchRow :=
  { match_id := 1, address := 1, date := 0, isDeployed := 1,
    home_score := none, away_score := none }

/-- Healthy oracle; the two fetch call sites return distinguishable scores. -/
def C6oracle : Oracle :=
  { checkUpkeep := .ok false, performUpkeep := .ok { status := 1 },
    getWinner := .ok 2, getMatchId := .ok 1,
    fetchFinal := .ok (some 1, some 1), fetchThrottle := .ok (some 2, some 2) }

/-- Past the grace period and past a 1-day long timeout. -/
def C6env : Env := { now := 1000000, timeoutKeeperNeeded := 1 }

def C6run : Conn × Nat × List LogEvent := mainRun C6env (fun _ => C6oracle) [C6row]

/-- Upkeep is needed and the upkeep transaction mines with a failure receipt
(status 0); everything else is healthy. -/
def C7oracle : Oracle :=
  { checkUpkeep := .ok true, performUpkeep := .ok { status := 0 },
    getWinner := .ok 2, getMatchId := .ok 1,
    fetchFinal := .ok (some 3, some 4), fetchThrottle := .ok (some 0, some 0) }

def C7env : Env := { now := 400000, timeoutKeeperNeeded := 100 }

def C7run : Conn × Nat × List LogEvent := mainRun C7env (fun _ => C7oracle) [C6row]

/-- Upkeep is needed and the submission itself raises. -/
def C7badOracle : Oracle :=
  { checkUpkeep := .ok true, performUpkeep := .error .rpcError,
    getWinner := .ok 2, getMatchId := .ok 1,
    fetchFinal := .ok (some 3, some 4), fetchThrottle := .ok (some 0, some 0) }

def C7row : DeployedRow := { match_id := 1, address := 1, date := 0, isDeployed := 1 }

/-- The only row actually present in the store has id 3. -/
def C8storeRow : MatchRow :=
  { match_id := 3, address := 3, date := 0, isDeployed := 1,
    home_score := none, away_score := none }

/-- A batch row whose id 7 does not exist in the store. -/
def C8row : DeployedRow := { match_id := 7, address := 7, date := 0, isDeployed := 1 }

def C8oracle : Oracle :=
  { checkUpkeep := .ok false, performUpkeep := .ok { status := 1 },
    getWinner := .ok 2, getMatchId := .ok 7,
    fetchFinal := .ok (some 1, some 2), fetchThrottle := .ok (some 0, some 0) }

def C8env : Env := { now := 400000, timeoutKeeperNeeded := 100 }

def C8run : Conn × Nat × List LogEvent :=
  runBatch C8env [(C8row, C8oracle)] { durable := [C8storeRow], pending := [] } 0

def C9rowD (i : Nat) : DeployedRow := { match_id := i, address := i, date := 0, isDeployed := 1 }

/-- Healthy except that the throttle-branch score fetch raises. -/
def C9oracle (i : Nat) : Oracle :=
  { checkUpkeep := .ok false, performUpkeep := .ok { status := 1 },
    getWinner := .ok 2, getMatchId := .ok i,
    fetchFinal := .ok (some 1, some 1),
    fetchThrottle := .error (if i = 1 then .externalApiError else .rpcError) }

def C9env : Env := { now := 1000000, timeoutKeeperNeeded := 1 }

def C9run : Conn × Nat × List LogEvent :=
  runBatch C9env [(C9rowD 1, C9oracle 1), (C9rowD 2, C9oracle 2)]
    { durable := [], pending := [] } 0

/-- Match 1: deployed at 0, eligible for both branches, throttle fetch raises. -/
def C10rowA : MatchRow :=
  { match_id := 1, address := 1, date := 0, isDeployed := 1,
    home_score := none, away_score := none }

/-- Match 2: eligible for both branches, fully healthy. -/
def C10rowB : MatchRow :=
  { match_id := 2, address := 2, date := 700000, isDeployed := 1,
    home_score := none, away_score := none }

def C10oracle (a : Nat) : Oracle :=
  if a = 1 then
    { checkUpkeep := .ok false, performUpkeep := .ok { status := 1 },
      getWinner := .ok 2, getMatchId := .ok 1,
      fetchFinal := .ok (some 3, some 4), fetchThrottle := .error .externalApiError }
  else
    { checkUpkeep := .ok false, performUpkeep := .ok { status := 1 },
      getWinner := .ok 2, getMatchId := .ok 2,
      fetchFinal := .ok (some 5, some 6), fetchThrottle := .ok (some 7, some 8) }

def C10env : Env := { now := 1000000, timeoutKeeperNeeded := 1 }

def C10store : Store := [C10rowA, C10rowB]

/-- The isolated processing of match 1 (before match 2 runs). -/
def C10body : Except Err Unit × Conn × Nat × List LogEvent :=
  processMatchBody C10env (C10oracle 1)
    { match_id := 1, address := 1, date := 0, isDeployed := 1 }
    { durable := C10store, pending := [] } 0

def C10run : Conn × Nat × List LogEvent := mainRun C10env C10oracle C10store

/-- Recognizes the per-match error log line. -/
def isErrorEv (ev : LogEvent) : Bool :=
  match ev with
  | .errorEv _ _ => true
  | _ => false

def C3rowD : DeployedRow := { match_id := 1, address := 1, date := 0, isDeployed := 1 }

def C3conn : Conn := { durable := [C3row], pending := [] }

def C6rowD : DeployedRow := { match_id := 1, address := 1, date := 0, isDeployed := 1 }

def C6conn : Conn := { durable := [C6row], pending := [] }

def C7conn : Conn := { durable := [C6row], pending := [] }

/-- Scenario B of the spec: one hour after deployment, winner already set. -/
def C2env : Env := { now := 3600, timeoutKeeperNeeded := 100 }

def C2row : DeployedRow := { match_id := 1, address := 1, date := 0, isDeployed := 1 }

def C2oracle : Oracle :=
  { checkUpkeep := .ok false, performUpkeep := .ok { status := 1 },
    getWinner := .ok 2, getMatchId := .ok 1,
    fetchFinal := .ok (some 1, some 0), fetchThrottle := .ok (some 1, some 0) }

def C2conn : Conn := { durable := [C3row], pending := [] }

/-- A store in which match 9 is already Finalized. -/
def C4conn : Conn :=
  { durable := [{ match_id := 9, address := 9, date := 0, isDeployed := 2,
                  home_score := some 1, away_score := some 1 }], pending := [] }

def C4batch : List (DeployedRow × Oracle) := [(C9rowD 9, C1oracle 9)]

/-! Helper lemmas about the store, the connection and the engine phases. -/

/-- An UPDATE never changes a row's primary key. -/
theorem updRow_match_id (u : DbUpdate) (r : MatchRow) :
    (updRow u r).match_id = r.match_id := by
  cases u <;> simp only [updRow] <;> split <;> rfl

/-- An UPDATE either leaves a row's `isDeployed` unchanged or sets it to 2. -/
theorem updRow_isDeployed_or (u : DbUpdate) (r : MatchRow) :
    (updRow u r).isDeployed = r.isDeployed ∨ (updRow u r).isDeployed = 2 := by
  cases u <;> simp only [updRow] <;> split <;> simp

theorem statusOf_applyUpdate_or (s : Store) (u : DbUpdate) (id : Nat) :
    statusOf (applyUpdate s u) id = statusOf s id ∨
    statusOf (applyUpdate s u) id = some 2 := by
  induction s with
  | nil => exact Or.inl rfl
  | cons r t ih =>
    simp only [applyUpdate, List.map_cons, statusOf, updRow_match_id] at *
    by_cases h : (r.match_id == id) = true
    · simp only [h, if_true]
      rcases updRow_isDeployed_or u r with h2 | h2
      · rw [h2]; exact Or.inl rfl
      · rw [h2]; exact Or.inr rfl
    · simp only [Bool.not_eq_true] at h
      simp only [h, if_false]
      exact ih

theorem statusOf_setHome (s : Store) (j : Nat) (v : Option Int) (id : Nat) :
    statusOf (applyUpdate s (.setHomeScore j v)) id = statusOf s id := by
  induction s with
  | nil => rfl
  | cons r t ih =>
    simp only [applyUpdate, List.map_cons, statusOf, updRow_match_id] at *
    by_cases h : (r.match_id == id) = true
    · simp only [h, if_true, updRow]
      split <;> rfl
    · simp only [Bool.not_eq_true] at h
      simp only [h, if_false]
      exact ih

theorem statusOf_setAway (s : Store) (j : Nat) (v : Option Int) (id : Nat) :
    statusOf (applyUpdate s (.setAwayScore j v)) id = statusOf s id := by
  induction s with
  | nil => rfl
  | cons r t ih =>
    simp only [applyUpdate, List.map_cons, statusOf, updRow_match_id] at *
    by_cases h : (r.match_id == id) = true
    · simp only [h, if_true, updRow]
      split <;> rfl
    · simp only [Bool.not_eq_true] at h
      simp only [h, if_false]
      exact ih

theorem statusOf_setDeployed2_self (s : Store) (id : Nat) :
    statusOf (applyUpdate s (.setDeployed2 id)) id =
      (statusOf s id).map (fun _ => 2) := by
  induction s with
  | nil => rfl
  | cons r t ih =>
    simp only [applyUpdate, List.map_cons, statusOf, updRow_match_id] at *
    by_cases h : (r.match_id == id) = true
    · simp only [h, if_true, updRow, Option.map_some]
      rfl
    · simp only [Bool.not_eq_true] at h
      simp only [h, if_false]
      exact ih

theorem statusOf_foldl_or (us : List DbUpdate) (s : Store) (id : Nat) :
    statusOf (us.foldl applyUpdate s) id = statusOf s id ∨
    statusOf (us.foldl applyUpdate s) id = some 2 := by
  induction us generalizing s with
  | nil => exact Or.inl rfl
  | cons u rest ih =>
    simp only [List.foldl_cons]
    rcases ih (applyUpdate s u) with h | h
    · rw [h]; exact statusOf_applyUpdate_or s u id
    · exact Or.inr h

/-- The database phase only ever changes the durable store by applying a
list of UPDATEs to it (through a commit). -/
theorem updateDbPhase_durable_ex (env : Env) (o : Oracle) (row : DeployedRow)
    (c : Conn) (tempo : Nat) (ms : Nat) :
    ∃ us : List DbUpdate,
      (updateDbPhase env o row c tempo ms).2.1.durable = us.foldl applyUpdate c.durable := by
  rcases hg : o.getMatchId with e | mid <;>
    rcases hf : o.fetchFinal with e1 | p <;>
      rcases ht : o.fetchThrottle with e2 | q <;>
        simp only [updateDbPhase, registerMatchScore, hg, hf, ht, Conn.execute, Conn.commit] <;>
          split_ifs <;>
            first
              | exact ⟨[], rfl⟩
              | exact ⟨_, rfl⟩

theorem processMatchBody_durable_ex (env : Env) (o : Oracle) (row : DeployedRow)
    (c : Conn) (tempo : Nat) :
    ∃ us : List DbUpdate,
      (processMatchBody env o row c tempo).2.1.durable = us.foldl applyUpdate c.durable := by
  rcases hc : o.checkUpkeep with e | b
  · exact ⟨[], by simp [processMatchBody, hc]⟩
  · cases b
    · rcases hw : o.getWinner with e | ms
      · exact ⟨[], by simp [processMatchBody, hc, hw]⟩
      · obtain ⟨us, hus⟩ := updateDbPhase_durable_ex env o row c tempo ms
        exact ⟨us, by simp [processMatchBody, hc, hw]; exact hus⟩
    · rcases hp : o.performUpkeep with e | rc
      · exact ⟨[], by simp [processMatchBody, hc, hp]⟩
      · rcases hw : o.getWinner with e | ms
        · exact ⟨[], by simp [processMatchBody, hc, hp, hw]⟩
        · obtain ⟨us, hus⟩ := updateDbPhase_durable_ex env o row c tempo ms
          exact ⟨us, by simp [processMatchBody, hc, hp, hw]; exact hus⟩

theorem processMatchBody_statusOf_or (env : Env) (o : Oracle) (row : DeployedRow)
    (c : Conn) (tempo : Nat) (id : Nat) :
    statusOf (processMatchBody env o row c tempo).2.1.durable id = statusOf c.durable id ∨
    statusOf (processMatchBody env o row c tempo).2.1.durable id = some 2 := by
  obtain ⟨us, hus⟩ := processMatchBody_durable_ex env o row c tempo
  rw [hus]
  exact statusOf_foldl_or us c.durable id

theorem runBatch_statusOf_or (env : Env) (batch : List (DeployedRow × Oracle))
    (c : Conn) (t : Nat) (id : Nat) :
    statusOf (runBatch env batch c t).1.durable id = statusOf c.durable id ∨
    statusOf (runBatch env batch c t).1.durable id = some 2 := by
  induction batch generalizing c t with
  | nil => exact Or.inl rfl
  | cons p rest ih =>
    have hstep := processMatchBody_statusOf_or env p.2 p.1 c t id
    have hrest := ih (processMatchBody env p.2 p.1 c t).2.1 (processMatchBody env p.2 p.1 c t).2.2.1
    have hgoal : (runBatch env (p :: rest) c t).1 =
        (runBatch env rest (processMatchBody env p.2 p.1 c t).2.1
          (processMatchBody env p.2 p.1 c t).2.2.1).1 := by
      simp only [runBatch]
    rw [hgoal]
    rcases hrest with h | h
    · rw [h]; exact hstep
    · exact Or.inr h

/-- The throttle branch, in one iteration, either does not complete (the
counter and the count of completed re-fetch log lines are unchanged) or
completes exactly once, which requires the counter to be divisible by 50
and bumps it by one (wrapping at 50). -/
theorem updateDbPhase_throttle (env : Env) (o : Oracle) (row : DeployedRow)
    (c : Conn) (t : Nat) (ms : Nat) :
    ((updateDbPhase env o row c t ms).2.2.1 = t ∧
     ((updateDbPhase env o row c t ms).2.2.2.filter isThrottleScore).length = 0) ∨
    (t % 50 = 0 ∧
     (updateDbPhase env o row c t ms).2.2.1 = (if t + 1 = 50 then 0 else t + 1) ∧
     ((updateDbPhase env o row c t ms).2.2.2.filter isThrottleScore).length = 1) := by
  rcases hg : o.getMatchId with e | mid <;>
    rcases hf : o.fetchFinal with e1 | p <;>
      rcases ht : o.fetchThrottle with e2 | q <;>
        simp only [updateDbPhase, registerMatchScore, hg, hf, ht, Conn.execute, Conn.commit] <;>
          split_ifs with h1 h2 <;>
            simp_all [isThrottleScore]

theorem processMatchBody_throttle (env : Env) (o : Oracle) (row : DeployedRow)
    (c : Conn) (t : Nat) :
    ((processMatchBody env o row c t).2.2.1 = t ∧
     ((processMatchBody env o row c t).2.2.2.filter isThrottleScore).length = 0) ∨
    (t % 50 = 0 ∧
     (processMatchBody env o row c t).2.2.1 = (if t + 1 = 50 then 0 else t + 1) ∧
     ((processMatchBody env o row c t).2.2.2.filter isThrottleScore).length = 1) := by
  rcases hc : o.checkUpkeep with e | b
  · exact Or.inl ⟨by simp [processMatchBody, hc], by simp [processMatchBody, hc]⟩
  · cases b
    · rcases hw : o.getWinner with e | ms
      · exact Or.inl ⟨by simp [processMatchBody, hc, hw], by simp [processMatchBody, hc, hw]⟩
      · have h := updateDbPhase_throttle env o row c t ms
        rcases h with ⟨h1, h2⟩ | ⟨h0, h1, h2⟩
        · exact Or.inl ⟨by simp [processMatchBody, hc, hw, h1],
            by simp [processMatchBody, hc, hw, h2]⟩
        · exact Or.inr ⟨h0, by simp [processMatchBody, hc, hw, h1],
            by simp [processMatchBody, hc, hw, h2]⟩
    · rcases hp : o.performUpkeep with e | rc
      · exact Or.inl ⟨by simp [processMatchBody, hc, hp], by simp [processMatchBody, hc, hp]⟩
      · rcases hw : o.getWinner with e | ms
        · exact Or.inl ⟨by simp [processMatchBody, hc, hp, hw],
            by simp [processMatchBody, hc, hp, hw, isThrottleScore]⟩
        · have h := updateDbPhase_throttle env o row c t ms
          rcases h with ⟨h1, h2⟩ | ⟨h0, h1, h2⟩
          · exact Or.inl ⟨by simp [processMatchBody, hc, hp, hw, h1],
              by simp [processMatchBody, hc, hp, hw, h2, isThrottleScore]⟩
          · exact Or.inr ⟨h0, by simp [processMatchBody, hc, hp, hw, h1],
              by simp [processMatchBody, hc, hp, hw, h2, isThrottleScore]⟩

theorem filter_append_len (p : LogEvent → Bool) (a b : List LogEvent) :
    ((a ++ b).filter p).length = (a.filter p).length + (b.filter p).length := by
  simp [List.filter_append]

/-- Batch invariant behind the throttle: starting from counter 0 or 1, the
counter stays in that range and the number of completed throttled re-fetch
executions accounts exactly for its growth. -/
theorem runBatch_throttle (env : Env) (batch : List (DeployedRow × Oracle))
    (c : Conn) (t : Nat) (ht : t = 0 ∨ t = 1) :
    ((runBatch env batch c t).2.1 = 0 ∨ (runBatch env batch c t).2.1 = 1) ∧
    ((runBatch env batch c t).2.2.filter isThrottleScore).length + t =
      (runBatch env batch c t).2.1 := by
  induction batch generalizing c t with
  | nil => exact ⟨ht, by simp [runBatch]⟩
  | cons pr rest ih =>
    obtain ⟨row, o⟩ := pr
    have hunfold : runBatch env ((row, o) :: rest) c t =
        ((runBatch env rest (processMatchBody env o row c t).2.1
            (processMatchBody env o row c t).2.2.1).1,
         (runBatch env rest (processMatchBody env o row c t).2.1
            (processMatchBody env o row c t).2.2.1).2.1,
         (match (processMatchBody env o row c t).1 with
          | .ok _ => (processMatchBody env o row c t).2.2.2
          | .error e => (processMatchBody env o row c t).2.2.2 ++
              [LogEvent.errorEv row.match_id e]) ++
           (runBatch env rest (processMatchBody env o row c t).2.1
              (processMatchBody env o row c t).2.2.1).2.2) := rfl
    have hbody := processMatchBody_throttle env o row c t
    rcases hbody with ⟨h1, h2⟩ | ⟨h0, h1, h2⟩
    · have ht' : (processMatchBody env o row c t).2.2.1 = 0 ∨
          (processMatchBody env o row c t).2.2.1 = 1 := by rw [h1]; exact ht
      obtain ⟨hrec1, hrec2⟩ := ih (processMatchBody env o row c t).2.1
        (processMatchBody env o row c t).2.2.1 ht'
      rw [h1] at hrec1 hrec2
      rw [hunfold]
      dsimp only
      rw [h1]
      refine ⟨hrec1, ?_⟩
      cases hres : (processMatchBody env o row c t).1 with
      | ok u =>
        dsimp only
        rw [filter_append_len, h2]
        omega
      | error e =>
        dsimp only
        rw [filter_append_len, filter_append_len, h2]
        simp only [List.filter, isThrottleScore, List.length_nil]
        omega
    · have ht0 : t = 0 := by
        rcases ht with h | h
        · exact h
        · exfalso; rw [h] at h0; simp at h0
      subst ht0
      have hone : (processMatchBody env o row c 0).2.2.1 = 1 := by
        rw [h1]; decide
      obtain ⟨hrec1, hrec2⟩ := ih (processMatchBody env o row c 0).2.1
        (processMatchBody env o row c 0).2.2.1 (Or.inr hone)
      rw [hone] at hrec1 hrec2
      rw [hunfold]
      dsimp only
      rw [hone]
      refine ⟨hrec1, ?_⟩
      cases hres : (processMatchBody env o row c 0).1 with
      | ok u =>
        dsimp only
        rw [filter_append_len, h2]
        omega
      | error e =>
        dsimp only
        rw [filter_append_len, filter_append_len, h2]
        simp only [List.filter, isThrottleScore, List.length_nil]
        omega

/-- The batch loop always runs to the end of the list: processing a batch
`xs ++ ys` is processing `xs`, then processing `ys` from the state `xs`
left behind, with the logs concatenated — whatever errors occurred in `xs`. -/
theorem runBatch_append (env : Env) (xs ys : List (DeployedRow × Oracle))
    (c : Conn) (t : Nat) :
    runBatch env (xs ++ ys) c t =
      ((runBatch env ys (runBatch env xs c t).1 (runBatch env xs c t).2.1).1,
       (runBatch env ys (runBatch env xs c t).1 (runBatch env xs c t).2.1).2.1,
       (runBatch env xs c t).2.2 ++
         (runBatch env ys (runBatch env xs c t).1 (runBatch env xs c t).2.1).2.2) := by
  induction xs generalizing c t with
  | nil => simp [runBatch]
  | cons pr rest ih =>
    obtain ⟨row, o⟩ := pr
    show runBatch env ((row, o) :: (rest ++ ys)) c t = _
    have hcons : ∀ (zs : List (DeployedRow × Oracle)),
        runBatch env ((row, o) :: zs) c t =
          ((runBatch env zs (processMatchBody env o row c t).2.1
              (processMatchBody env o row c t).2.2.1).1,
           (runBatch env zs (processMatchBody env o row c t).2.1
              (processMatchBody env o row c t).2.2.1).2.1,
           (match (processMatchBody env o row c t).1 with
            | .ok _ => (processMatchBody env o row c t).2.2.2
            | .error e => (processMatchBody env o row c t).2.2.2 ++
                [LogEvent.errorEv row.match_id e]) ++
             (runBatch env zs (processMatchBody env o row c t).2.1
                (processMatchBody env o row c t).2.2.1).2.2) := fun zs => rfl
    rw [hcons (rest ++ ys), hcons rest]
    dsimp only
    rw [ih]
    dsimp only
    rw [List.append_assoc]

/-- A status UPDATE for a key matching no row leaves the table unchanged
(and raises nothing: the function is total). -/
theorem applyUpdate_setDeployed2_absent (s : Store) (id : Nat)
    (h : ∀ r ∈ s, r.match_id ≠ id) : applyUpdate s (.setDeployed2 id) = s := by
  induction s with
  | nil => rfl
  | cons r t ih =>
    have hr : r.match_id ≠ id := h r (by simp)
    have hrb : (r.match_id == id) = false := by simp [hr]
    simp only [applyUpdate, List.map_cons] at *
    rw [ih (fun x hx => h x (by simp [hx]))]
    simp [updRow, hrb]

/-- Committing two extra score updates on top of a pending list persists the
same `isDeployed` column as committing without them. -/
theorem statusOf_commit_scores (c : Conn) (mid : Nat) (h a : Option Int) (id : Nat) :
    statusOf (((c.execute (.setHomeScore mid h)).execute (.setAwayScore mid a)).commit).durable id =
    statusOf c.commit.durable id := by
  simp only [Conn.execute, Conn.commit]
  rw [List.foldl_append, List.foldl_append]
  simp only [List.foldl_cons, List.foldl_nil]
  rw [statusOf_setAway, statusOf_setHome]

theorem updateDbPhase_tempo_status (env : Env) (o : Oracle) (row : DeployedRow)
    (c : Conn) (ms : Nat) (id : Nat) (mid : Nat) (q : Option Int × Option Int)
    (hgm : o.getMatchId = .ok mid) (hft : o.fetchThrottle = .ok q) :
    statusOf (updateDbPhase env o row c 0 ms).2.1.durable id =
    statusOf (updateDbPhase env o row c 1 ms).2.1.durable id := by
  rcases hf : o.fetchFinal with e1 | p <;>
    simp only [updateDbPhase, registerMatchScore, hgm, hft, hf] <;>
      split_ifs <;>
        first
          | rfl
          | (exact statusOf_commit_scores _ mid q.1 q.2 id)
          | simp_all

/-- Committing the two score updates and the status update of the
finalization branch persists `isDeployed = 2` for the finalized row. -/
theorem statusOf_finalize_commit (c : Conn) (mid : Nat) (p : Option Int × Option Int)
    (rid : Nat) (v : Nat) (hst : statusOf c.durable rid = some v) :
    statusOf ((((c.execute (.setHomeScore mid p.1)).execute (.setAwayScore mid p.2)).execute
      (.setDeployed2 rid)).commit).durable rid = some 2 := by
  simp only [Conn.execute, Conn.commit]
  rw [List.foldl_append, List.foldl_append, List.foldl_append]
  simp only [List.foldl_cons, List.foldl_nil]
  rw [statusOf_setDeployed2_self, statusOf_setAway, statusOf_setHome]
  rcases statusOf_foldl_or c.pending c.durable rid with h | h
  · rw [h, hst]; rfl
  · rw [h]; rfl

/-- In an error-free iteration, the finalization branch runs if and only if
the grace period has passed or the winner state is non-zero, and when it
runs the row ends up durably Finalized. -/
theorem updateDbPhase_finalize (env : Env) (o : Oracle) (row : DeployedRow)
    (c : Conn) (tempo : Nat) (ms mid : Nat) (p q : Option Int × Option Int) (v : Nat)
    (hgm : o.getMatchId = .ok mid)
    (hff : o.fetchFinal = .ok p)
    (hft : o.fetchThrottle = .ok q)
    (hdep : row.isDeployed = 1)
    (hst : statusOf c.durable row.match_id = some v) :
    (LogEvent.timeoutEv row.match_id ∈ (updateDbPhase env o row c tempo ms).2.2.2 ↔
      (env.now > row.date + 3 * 24 * 60 * 60 ∨ ms ≠ 0)) ∧
    ((env.now > row.date + 3 * 24 * 60 * 60 ∨ ms ≠ 0) →
      (updateDbPhase env o row c tempo ms).1 = .ok () ∧
      statusOf (updateDbPhase env o row c tempo ms).2.1.durable row.match_id = some 2) := by
  by_cases hcond : env.now > row.date + 3 * 24 * 60 * 60 ∨ ms ≠ 0
  · have hcond4 : (env.now > row.date + 3 * 24 * 60 * 60 ∨ ms ≠ 0) ∧ row.isDeployed < 2 :=
      ⟨hcond, by rw [hdep]; exact Nat.one_lt_two⟩
    simp only [updateDbPhase, registerMatchScore, hgm, hff, hft]
    rw [if_pos hcond4]
    dsimp only
    by_cases hthr : env.now > row.date + env.timeoutKeeperNeeded * 24 * 60 * 60 ∧
        ms ≠ 0 ∧ tempo % 50 = 0
    · rw [if_pos hthr]
      dsimp only
      refine ⟨by simpa using hcond, fun _ => ⟨rfl, ?_⟩⟩
      rw [statusOf_commit_scores]
      exact statusOf_finalize_commit c mid p row.match_id v hst
    · rw [if_neg hthr]
      dsimp only
      refine ⟨by simpa using hcond, fun _ => ⟨rfl, ?_⟩⟩
      exact statusOf_finalize_commit c mid p row.match_id v hst
  · have hms : ¬ ms ≠ 0 := fun h => hcond (Or.inr h)
    have hcond4 : ¬ ((env.now > row.date + 3 * 24 * 60 * 60 ∨ ms ≠ 0) ∧ row.isDeployed < 2) :=
      fun h => hcond h.1
    have hthr : ¬ (env.now > row.date + env.timeoutKeeperNeeded * 24 * 60 * 60 ∧
        ms ≠ 0 ∧ tempo % 50 = 0) := fun h => hms h.2.1
    simp only [updateDbPhase, registerMatchScore, hgm, hff, hft]
    rw [if_neg hcond4]
    dsimp only
    rw [if_neg hthr]
    dsimp only
    exact ⟨by simpa using hcond, fun h => absurd h hcond⟩

/-! The claims. -/

set_option maxRecDepth 8000 in
/-- Claim C1. Contrary to the claim that in a batch of 120 throttle-eligible
matches the re-fetch fires at counter positions 0, 50 and 100, the code
fires the throttled re-fetch only on the first eligible match: the counter
is incremented only inside the guarded branch, so it sticks at 1 and the
wrap at 50 is unreachable.  Evaluating the engine on 120 eligible matches,
the throttle-branch API call happens exactly once, for match 0, and the
counter ends at 1. -/
theorem C1_throttle_fires_only_once_in_120 :
    (runBatch C1env C1batch { durable := [], pending := [] } 0).2.2.filter isThrottleAttempt =
      [.fetchAttemptEv true 0] ∧
    (runBatch C1env C1batch { durable := [], pending := [] } 0).2.1 = 1 := by
  constructor <;> rfl

/-- Claim C2. For a match of the batch (an Active row, `isDeployed = 1`)
whose chain calls and score fetches all succeed, the immediate finalization
(score fetch, status update, commit) runs if and only if `now` is past the
deploy date plus the 3-day grace period or the on-chain winner state is
non-zero; when it runs, the match is durably Finalized in the same cycle. -/
theorem C2_immediate_finalization_iff (env : Env) (o : Oracle) (row : DeployedRow)
    (c : Conn) (tempo : Nat)
    (b : Bool) (rc : TxReceipt) (ms mid : Nat) (p q : Option Int × Option Int) (v : Nat)
    (hchk : o.checkUpkeep = .ok b)
    (hperf : o.performUpkeep = .ok rc)
    (hwin : o.getWinner = .ok ms)
    (hgm : o.getMatchId = .ok mid)
    (hff : o.fetchFinal = .ok p)
    (hft : o.fetchThrottle = .ok q)
    (hdep : row.isDeployed = 1)
    (hst : statusOf c.durable row.match_id = some v) :
    (LogEvent.timeoutEv row.match_id ∈ (processMatchBody env o row c tempo).2.2.2 ↔
      (env.now > row.date + 3 * 24 * 60 * 60 ∨ ms ≠ 0)) ∧
    ((env.now > row.date + 3 * 24 * 60 * 60 ∨ ms ≠ 0) →
      (processMatchBody env o row c tempo).1 = .ok () ∧
      statusOf (processMatchBody env o row c tempo).2.1.durable row.match_id = some 2) := by
  have hud := updateDbPhase_finalize env o row c tempo ms mid p q v hgm hff hft hdep hst
  cases b
  · simp only [processMatchBody, hchk, hwin]
    exact hud
  · simp only [processMatchBody, hchk, hperf, hwin, if_true]
    refine ⟨?_, fun h => (hud.2 h)⟩
    rw [List.mem_cons]
    constructor
    · intro h
      rcases h with h | h
      · exact absurd h (by simp)
      · exact hud.1.mp h
    · intro h
      exact Or.inr (hud.1.mpr h)

/-- Witness for C2, instantiated at the spec's Scenario B: one hour after
deployment with winner state 2, the match finalizes immediately. -/
theorem C2_immediate_finalization_iff_witness :
    LogEvent.timeoutEv 1 ∈ (processMatchBody C2env C2oracle C2row C2conn 0).2.2.2 ∧
    statusOf (processMatchBody C2env C2oracle C2row C2conn 0).2.1.durable 1 = some 2 := by
  have h := C2_immediate_finalization_iff C2env C2oracle C2row C2conn 0 false { status := 1 }
    2 1 (some 1, some 0) (some 1, some 0) 1 rfl rfl rfl rfl rfl rfl rfl (by decide)
  have hcond : C2env.now > C2row.date + 3 * 24 * 60 * 60 ∨ (2 : Nat) ≠ 0 :=
    Or.inr (by decide)
  exact ⟨h.1.mpr hcond, (h.2 hcond).2⟩

/-- Claim C3, counterexample. When the score fetch of the immediate
finalization raises, the status does NOT advance in that cycle: on a
concrete run the match stays Active (`isDeployed = 1`), the `timeout` log
line never appears, and the cycle ends with the per-match error logged —
refuting the claim that `lifecycleStatus` is nevertheless set to Finalized. -/
theorem C3_fetch_failure_counterexample :
    statusOf C3run.1.durable 1 = some 1 ∧
    scoresOf C3run.1.durable 1 = some (none, none) ∧
    LogEvent.timeoutEv 1 ∉ C3run.2.2 ∧
    LogEvent.errorEv 1 .externalApiError ∈ C3run.2.2 := by
  decide

/-- Claim C3, amended: if the score fetch performed during immediate
finalization fails, the exception aborts the match's processing at that
point — scores and status are both left unchanged, no commit happens, and
the only trace is the attempted API call; the Finalized transition does not
happen in that cycle. -/
theorem C3_fetch_failure_blocks_finalization (env : Env) (o : Oracle) (row : DeployedRow)
    (c : Conn) (tempo : Nat) (mid : Nat) (e : Err) (ms : Nat)
    (hchk : o.checkUpkeep = .ok false)
    (hwin : o.getWinner = .ok ms)
    (hgm : o.getMatchId = .ok mid)
    (hff : o.fetchFinal = .error e)
    (hcond : (env.now > row.date + 3 * 24 * 60 * 60 ∨ ms ≠ 0) ∧ row.isDeployed < 2) :
    processMatchBody env o row c tempo =
      (.error e, c, tempo, [.fetchAttemptEv false mid]) := by
  simp only [processMatchBody, hchk, hwin, updateDbPhase, registerMatchScore, hgm, hff]
  split_ifs <;> first | rfl | (exact absurd hcond (by assumption)) | simp_all

/-- Witness for the amended C3 at a concrete failing fetch. -/
theorem C3_fetch_failure_blocks_finalization_witness :
    processMatchBody C3env C3oracle C3rowD C3conn 0 =
      (.error .externalApiError, C3conn, 0, [.fetchAttemptEv false 1]) :=
  C3_fetch_failure_blocks_finalization C3env C3oracle C3rowD C3conn 0 1 .externalApiError 2
    rfl rfl rfl rfl (by decide)

/-- Claim C4. Lifecycle status is monotonic across a whole run of the batch
loop: for any match id, the persisted status after the run is either exactly
what it was before or 2 (Finalized); in particular a Finalized match never
reverts. -/
theorem C4_lifecycle_monotonic (env : Env) (batch : List (DeployedRow × Oracle))
    (c : Conn) (t : Nat) (id : Nat) :
    (statusOf (runBatch env batch c t).1.durable id = statusOf c.durable id ∨
     statusOf (runBatch env batch c t).1.durable id = some 2) ∧
    (statusOf c.durable id = some 2 →
      statusOf (runBatch env batch c t).1.durable id = some 2) := by
  have h := runBatch_statusOf_or env batch c t id
  refine ⟨h, fun h2 => ?_⟩
  rcases h with h | h
  · rw [h, h2]
  · exact h

/-- Witness for C4: a store whose match 9 is already Finalized stays
Finalized after a run. -/
theorem C4_lifecycle_monotonic_witness :
    statusOf C4conn.durable 9 = some 2 ∧
    statusOf (runBatch C1env C4batch C4conn 0).1.durable 9 = some 2 :=
  ⟨by decide, (C4_lifecycle_monotonic C1env C4batch C4conn 0 9).2 (by decide)⟩

/-- Claim C5. Errors are caught at the match boundary and never abort the
batch: processing `xs ++ ys` always continues into `ys` whatever happened in
`xs`; and on the concrete 5-match batch in which match 2 raises an RpcError
on the upkeep check, matches 1, 3, 4, 5 are fully processed and durably
committed (Finalized with their scores), match 2 is untouched, and the
error is recorded against match 2 only. -/
theorem C5_fault_isolation :
    (∀ (env : Env) (xs ys : List (DeployedRow × Oracle)) (c : Conn) (t : Nat),
      runBatch env (xs ++ ys) c t =
        ((runBatch env ys (runBatch env xs c t).1 (runBatch env xs c t).2.1).1,
         (runBatch env ys (runBatch env xs c t).1 (runBatch env xs c t).2.1).2.1,
         (runBatch env xs c t).2.2 ++
           (runBatch env ys (runBatch env xs c t).1 (runBatch env xs c t).2.1).2.2)) ∧
    (statusOf C5run.1.durable 1 = some 2 ∧
     statusOf C5run.1.durable 3 = some 2 ∧
     statusOf C5run.1.durable 4 = some 2 ∧
     statusOf C5run.1.durable 5 = some 2 ∧
     scoresOf C5run.1.durable 3 = some (some 3, some 3) ∧
     statusOf C5run.1.durable 2 = some 1 ∧
     scoresOf C5run.1.durable 2 = some (none, none) ∧
     LogEvent.errorEv 2 .rpcError ∈ C5run.2.2 ∧
     C5run.2.2.filter isErrorEv = [.errorEv 2 .rpcError] ∧
     C5run.1.pending = []) :=
  ⟨runBatch_append, by decide⟩

/-- Claim C6, counterexample. The two branches are independent sequential
tests: on a concrete match past both timeouts with a non-zero winner, the
finalization branch fires (`timeout` logged, status set to 2) AND the
throttled re-fetch branch runs in the same cycle (its API call and
completed re-fetch are logged, and its score values overwrite the
finalization branch's) — refuting that the re-fetch applies only when step 4
did not fire. -/
theorem C6_both_branches_counterexample :
    LogEvent.timeoutEv 1 ∈ C6run.2.2 ∧
    LogEvent.fetchAttemptEv true 1 ∈ C6run.2.2 ∧
    LogEvent.registerScoreEv true 1 ∈ C6run.2.2 ∧
    statusOf C6run.1.durable 1 = some 2 ∧
    scoresOf C6run.1.durable 1 = some (some 2, some 2) := by
  decide

/-- Claim C6, amended: the throttled re-fetch branch's guard is independent
of whether the finalization fired in the same cycle, and taking the branch
never changes the persisted lifecycle status — running the iteration with
the throttle enabled (counter 0) persists exactly the same `isDeployed`
column as running it with the throttle disabled (counter 1). -/
theorem C6_throttle_never_changes_status (env : Env) (o : Oracle) (row : DeployedRow)
    (c : Conn) (id : Nat) (mid : Nat) (q : Option Int × Option Int)
    (hgm : o.getMatchId = .ok mid) (hft : o.fetchThrottle = .ok q) :
    statusOf (processMatchBody env o row c 0).2.1.durable id =
    statusOf (processMatchBody env o row c 1).2.1.durable id := by
  rcases hc : o.checkUpkeep with e | b
  · simp [processMatchBody, hc]
  · cases b
    · rcases hw : o.getWinner with e | ms
      · simp [processMatchBody, hc, hw]
      · simp only [processMatchBody, hc, hw]
        exact updateDbPhase_tempo_status env o row c ms id mid q hgm hft
    · rcases hp : o.performUpkeep with e | rc
      · simp [processMatchBody, hc, hp]
      · rcases hw : o.getWinner with e | ms
        · simp [processMatchBody, hc, hp, hw]
        · simp only [processMatchBody, hc, hp, hw]
          exact updateDbPhase_tempo_status env o row c ms id mid q hgm hft

/-- Witness for the amended C6 at a concrete oracle. -/
theorem C6_throttle_never_changes_status_witness :
    statusOf (processMatchBody C6env C6oracle C6rowD C6conn 0).2.1.durable 1 =
    statusOf (processMatchBody C6env C6oracle C6rowD C6conn 1).2.1.durable 1 :=
  C6_throttle_never_changes_status C6env C6oracle C6rowD C6conn 1 1 (some 2, some 2) rfl rfl

/-- Claim C7, counterexample. A submitted upkeep whose mined receipt has
status 0 (non-success) does NOT stop the match's processing: on a concrete
run the engine still queries the winner, finalizes the match and advances
its state — refuting the claim that a non-success receipt halts the match
for the cycle. -/
theorem C7_failed_receipt_counterexample :
    LogEvent.performUpkeepEv 1 ∈ C7run.2.2 ∧
    LogEvent.timeoutEv 1 ∈ C7run.2.2 ∧
    statusOf C7run.1.durable 1 = some 2 ∧
    C7run.2.2.filter isErrorEv = [] := by
  decide

/-- Claim C7, amended: only an exception from the upkeep submission stops
the match for the cycle — the failure is recorded against the match and
nothing else happens: no event is logged from the iteration body, the
connection and throttle counter are returned unchanged, and (since the
winner and fetch answers are left unconstrained here) no winner query or
finalization influences the outcome. -/
theorem C7_submit_exception_stops_processing (env : Env) (o : Oracle) (row : DeployedRow)
    (c : Conn) (tempo : Nat) (e : Err)
    (hchk : o.checkUpkeep = .ok true) (hperf : o.performUpkeep = .error e) :
    processMatchBody env o row c tempo = (.error e, c, tempo, []) ∧
    runBatch env [(row, o)] c tempo = (c, tempo, [.errorEv row.match_id e]) := by
  have h1 : processMatchBody env o row c tempo = (.error e, c, tempo, []) := by
    simp [processMatchBody, hchk, hperf]
  refine ⟨h1, ?_⟩
  simp [runBatch, h1]

/-- Witness for the amended C7 at a concrete raising submission. -/
theorem C7_submit_exception_stops_processing_witness :
    processMatchBody C7env C7badOracle C7row C7conn 5 = (.error .rpcError, C7conn, 5, []) ∧
    runBatch C7env [(C7row, C7badOracle)] C7conn 5 = (C7conn, 5, [.errorEv 1 .rpcError]) :=
  C7_submit_exception_stops_processing C7env C7badOracle C7row C7conn 5 .rpcError rfl rfl

/-- Claim C8, counterexample. Updating the status of a match id that is not
in the store raises no `NotFoundError` and does not skip the match: on a
concrete run with an unknown id 7 the iteration completes normally (score
fetch, status UPDATE, `timeout` log, commit), no error is recorded, and the
store is simply left unchanged — the UPDATE touched zero rows. -/
theorem C8_unknown_id_counterexample :
    C8run.1 = { durable := [C8storeRow], pending := [] } ∧
    C8run.2.2 = [.fetchAttemptEv false 7, .registerScoreEv false 7, .timeoutEv 7] ∧
    C8run.2.2.filter isErrorEv = [] := by
  decide

/-- Claim C8, amended: the status UPDATE is a total function with SQL
semantics — for a key present in the table it sets `isDeployed` to 2 (shown
on the first matching row), and for a key matching no row it is a silent
no-op that leaves the table unchanged; no failure path exists. -/
theorem C8_updateStatus_noop_semantics (s : Store) (id : Nat) :
    statusOf (applyUpdate s (.setDeployed2 id)) id = (statusOf s id).map (fun _ => 2) ∧
    ((∀ r ∈ s, r.match_id ≠ id) → applyUpdate s (.setDeployed2 id) = s) :=
  ⟨statusOf_setDeployed2_self s id, applyUpdate_setDeployed2_absent s id⟩

/-- Witness for the amended C8 at a concrete store without id 7. -/
theorem C8_updateStatus_noop_semantics_witness :
    (∀ r ∈ [C8storeRow], r.match_id ≠ 7) ∧
    applyUpdate [C8storeRow] (.setDeployed2 7) = [C8storeRow] ∧
    statusOf (applyUpdate [C8storeRow] (.setDeployed2 7)) 7 =
      (statusOf [C8storeRow] 7).map (fun _ => 2) :=
  ⟨by decide, (C8_updateStatus_noop_semantics [C8storeRow] 7).2 (by decide),
    (C8_updateStatus_noop_semantics [C8storeRow] 7).1⟩

/-- Claim C9, counterexample. The throttled branch can be ENTERED more than
once in a batch: when the throttled re-fetch raises, the counter increment
(placed after the fetch) is skipped, the counter stays 0, and the branch is
entered again for the next eligible match — on a concrete 2-match run the
throttle-branch API call is attempted twice and the counter is still 0 —
refuting the unconditional "executes at most once". -/
theorem C9_reentry_counterexample :
    C9run.2.2.filter isThrottleAttempt =
      [.fetchAttemptEv true 1, .fetchAttemptEv true 2] ∧
    (C9run.2.2.filter isThrottleAttempt).length = 2 ∧
    C9run.2.1 = 0 := by
  decide

/-- Claim C9, amended: within a single invocation (counter starting at 0),
the throttled re-fetch branch runs to completion at most once — at most one
completed re-fetch is logged across the whole batch, and the shared counter
never exceeds 1 (so the reset at 50 is unreachable). -/
theorem C9_throttle_completes_at_most_once (env : Env)
    (batch : List (DeployedRow × Oracle)) (c : Conn) :
    ((runBatch env batch c 0).2.2.filter isThrottleScore).length ≤ 1 ∧
    (runBatch env batch c 0).2.1 ≤ 1 := by
  obtain ⟨h1, h2⟩ := runBatch_throttle env batch c 0 (Or.inl rfl)
  rcases h1 with h1 | h1 <;> constructor <;> omega

/-- Claim C10. Processing of a single match is not atomic on error: on the
concrete run, match 1's iteration raises in the throttle branch after the
finalization branch already executed its three UPDATEs, so the iteration
returns an error with those updates still pending on the shared connection
(the durable store untouched); the commit of the next successfully
processed match (match 2) then makes them durable — the failed match 1 ends
the run durably Finalized with its scores persisted. -/
theorem C10_partial_updates_survive :
    C10body.1 = .error .externalApiError ∧
    C10body.2.1.durable = C10store ∧
    C10body.2.1.pending =
      [.setHomeScore 1 (some 3), .setAwayScore 1 (some 4), .setDeployed2 1] ∧
    statusOf C10run.1.durable 1 = some 2 ∧
    scoresOf C10run.1.durable 1 = some (some 3, some 4) ∧
    LogEvent.errorEv 1 .externalApiError ∈ C10run.2.2 ∧
    C10run.1.pending = [] :=
  ⟨rfl, rfl, rfl, by decide, by decide, by decide, rfl⟩

end KeeperFootBet
